import Mathlib

/-!
Shallow embedding of the Lovelace intercom card
(`src/frontend/www/intercom-card.js`, v2.0.0).

The card's mutable fields become a `CardState` record; DOM/network side
effects become explicit `Action` values returned next to the new state.
Times are modelled as rationals (the JS code uses the audio clock's
floating-point seconds; the constants 0.01, 0.2, 0.02 become 1/100, 1/5,
1/50).  Base64 (`btoa`/`atob`) and the Int16⇄byte views are embedded
directly so the audio envelope encoding can be reasoned about.
-/

namespace Intercom

/-- A device tuple as returned by the `list_devices` service:
`{device_id, name, host}`; a missing/unknown IP is `none`. -/
structure DeviceInfo where
  device_id : String
  name : String
  host : Option String
deriving DecidableEq

/-- The mutable state of `IntercomCard`.  Resource handles
(`_mediaStream`, `_workletNode`, `_source`, `_audioContext`,
`_playbackContext`, `_gainNode`) and the two event subscriptions are
modelled as booleans: `true` iff the handle is currently held. -/
structure CardState where
  active : Bool
  ringing : Bool
  starting : Bool
  stopping : Bool
  activeDeviceInfo : Option DeviceInfo
  selectedDestination : Option String
  availableDevices : List DeviceInfo
  mediaStream : Bool
  workletNode : Bool
  source : Bool
  audioContext : Bool
  playbackContext : Bool
  gainNode : Bool
  subscribedAudio : Bool
  subscribedState : Bool
  nextPlayTime : ℚ
  chunksDropped : Nat
  chunksSent : Nat
  chunksReceived : Nat
  ptmpMode : Bool
deriving DecidableEq

/-- The constructor's field initialisation. -/
def initialState : CardState where
  active := false
  ringing := false
  starting := false
  stopping := false
  activeDeviceInfo := none
  selectedDestination := none
  availableDevices := []
  mediaStream := false
  workletNode := false
  source := false
  audioContext := false
  playbackContext := false
  gainNode := false
  subscribedAudio := false
  subscribedState := false
  nextPlayTime := 0
  chunksDropped := 0
  chunksSent := 0
  chunksReceived := 0
  ptmpMode := false

/-- Observable side effects of the card: websocket messages sent to the
hub, audio sources started on the playback clock, and error text. -/
inductive Action where
  | sendStop (device_id : String)
  | sendBridge (source_device_id source_host dest_device_id dest_host : String)
  | sendAudio (device_id : String) (audio : List Char)
  | play (startTime duration : ℚ)
  | showError (msg : String)
deriving DecidableEq

/-- `_playScheduled(float32)`: the jitter playback scheduler.  `now` is
`playbackContext.currentTime`, `len` is `float32.length` (sample count);
the buffer's duration at 16 kHz is `len / 16000` seconds. -/
def playScheduled (st : CardState) (now : ℚ) (len : Nat) : CardState × List Action :=
  if st.playbackContext = false ∨ st.gainNode = false then (st, [])
  else
    let npt := if st.nextPlayTime < now then now + 1/100 else st.nextPlayTime
    if npt - now > 1/5 then
      ({ st with chunksDropped := st.chunksDropped + 1, nextPlayTime := now + 1/50 }, [])
    else
      ({ st with nextPlayTime := npt + (len : ℚ) / 16000 },
       [Action.play npt ((len : ℚ) / 16000)])

/-- Feed a sequence of `(arrival time, sample count)` chunks through
`_playScheduled`, collecting the emitted actions. -/
def playMany (st : CardState) (chunks : List (ℚ × Nat)) : CardState × List Action :=
  match chunks with
  | [] => (st, [])
  | (now, len) :: rest =>
    let r₁ := playScheduled st now len
    let r₂ := playMany r₁.1 rest
    (r₂.1, r₁.2 ++ r₂.2)

/-- `n` chunks of `len` samples each arriving exactly `d` seconds apart,
the first at time `t`. -/
def nominalChunks : ℚ → ℚ → Nat → Nat → List (ℚ × Nat)
  | _, _, _, 0 => []
  | t, d, len, n + 1 => (t, len) :: nominalChunks (t + d) d len n

/-- The base64 alphabet used by `btoa`/`atob`. -/
def b64Alphabet : List Char :=
  "ABCDEFGHIJKLMNOPQRSTUVWXYZabcdefghijklmnopqrstuvwxyz0123456789+/".toList

/-- Character of a 6-bit group. -/
def sextetChar (n : Nat) : Char := b64Alphabet.getD n 'A'

/-- Index of a base64 character in the alphabet (`none` for `'='` and
any other foreign character). -/
def charSextet (c : Char) : Option Nat :=
  List.findIdx? (fun x => x = c) b64Alphabet

/-- `btoa` on a byte list: 3 bytes become 4 characters, with `'='`
padding for a 1- or 2-byte tail. -/
def b64encode : List Nat → List Char
  | [] => []
  | [a] => [sextetChar (a / 4), sextetChar (a % 4 * 16), '=', '=']
  | [a, b] => [sextetChar (a / 4), sextetChar (a % 4 * 16 + b / 16), sextetChar (b % 16 * 4), '=']
  | a :: b :: c :: rest =>
      sextetChar (a / 4) :: sextetChar (a % 4 * 16 + b / 16) ::
        sextetChar (b % 16 * 4 + c / 64) :: sextetChar (c % 64) :: b64encode rest

/-- `atob` on a character list, producing the byte list; `none` models
the `InvalidCharacterError` that the card's `try`/`catch` swallows. -/
def b64decode : List Char → Option (List Nat)
  | [] => some []
  | c₁ :: c₂ :: c₃ :: c₄ :: rest =>
    match charSextet c₁, charSextet c₂ with
    | some s₁, some s₂ =>
      if rest = [] ∧ c₃ = '=' ∧ c₄ = '=' then
        some [s₁ * 4 + s₂ / 16]
      else if rest = [] ∧ c₄ = '=' then
        match charSextet c₃ with
        | some s₃ => some [s₁ * 4 + s₂ / 16, s₂ % 16 * 16 + s₃ / 4]
        | none => none
      else
        match charSextet c₃, charSextet c₄, b64decode rest with
        | some s₃, some s₄, some tail =>
            some ((s₁ * 4 + s₂ / 16) :: (s₂ % 16 * 16 + s₃ / 4) :: (s₃ % 4 * 64 + s₄) :: tail)
        | _, _, _ => none
    | _, _ => none
  | _ => none

/-- The unsigned 16-bit cell holding a signed sample, as stored by an
`Int16Array` (two's complement). -/
def u16OfInt16 (s : Int) : Nat := (s % 65536).toNat

/-- Reading an unsigned 16-bit cell back as a signed sample. -/
def int16OfU16 (u : Nat) : Int := if u < 32768 then (u : Int) else (u : Int) - 65536

/-- `new Uint8Array(int16Array.buffer)`: the little-endian byte image of
a sample list. -/
def bytesOfSamples : List Int → List Nat
  | [] => []
  | s :: rest => u16OfInt16 s % 256 :: u16OfInt16 s / 256 :: bytesOfSamples rest

/-- `new Int16Array(bytes.buffer)`: little-endian byte pairs back to
samples; an odd byte count throws, modelled as `none`. -/
def samplesOfBytes : List Nat → Option (List Int)
  | [] => some []
  | b₀ :: b₁ :: rest => (samplesOfBytes rest).map (fun tail => int16OfU16 (b₀ + 256 * b₁) :: tail)
  | _ => none

/-- Payload of an `intercom_audio` event (`event.data`). -/
structure AudioEventData where
  device_id : String
  audio : List Char
deriving DecidableEq

/-- Payload of an `intercom_state` event (`event.data`). -/
structure StateEventData where
  device_id : String
  state : String
deriving DecidableEq

/-- Payload of an `intercom_bridge_state` event (`event.data`). -/
structure BridgeEventData where
  source_device_id : String
  dest_device_id : String
  state : String
deriving DecidableEq

/-- `_cleanup()`: unsubscribe from both event streams, release every
audio resource, and reset the jitter cursor, drop counter and ringing
flag. -/
def cleanup (st : CardState) : CardState :=
  { st with
    subscribedAudio := false
    subscribedState := false
    mediaStream := false
    workletNode := false
    source := false
    audioContext := false
    playbackContext := false
    gainNode := false
    nextPlayTime := 0
    chunksDropped := 0
    ringing := false }

/-- `_hangup()`: send the stop request for the active device (when one
is known), run `_cleanup`, and clear the active/ringing/stopping flags
and the active device info. -/
def hangup (st : CardState) : CardState × List Action :=
  let acts := match st.activeDeviceInfo with
    | some info => [Action.sendStop info.device_id]
    | none => []
  ({ cleanup st with
      active := false
      ringing := false
      stopping := false
      activeDeviceInfo := none }, acts)

/-- `_sendAudio(int16Array)`: when a call is active, base64-encode the
samples' byte image and send it to the hub in a JSON envelope. -/
def sendAudio (st : CardState) (samples : List Int) : CardState × List Action :=
  match st.activeDeviceInfo with
  | some info =>
    if st.active then
      ({ st with chunksSent := st.chunksSent + 1 },
       [Action.sendAudio info.device_id (b64encode (bytesOfSamples samples))])
    else (st, [])
  | none => (st, [])

/-- `_handleStateEvent(event)`: ignore events without data, without an
active device, or for another device; otherwise apply the
`streaming` / `ringing` / `disconnected` transition. -/
def handleStateEvent (st : CardState) (ev : Option StateEventData) : CardState × List Action :=
  match ev, st.activeDeviceInfo with
  | some d, some info =>
    if d.device_id ≠ info.device_id then (st, [])
    else if d.state = "streaming" then ({ st with ringing := false, active := true }, [])
    else if d.state = "ringing" then ({ st with ringing := true, active := false }, [])
    else if d.state = "disconnected" then hangup st
    else (st, [])
  | _, _ => (st, [])

/-- `_handleBridgeStateEvent(event)`: the guard returns only when BOTH
the event's source differs from the active device AND the event's
destination differs from the selected destination. -/
def handleBridgeStateEvent (st : CardState) (ev : Option BridgeEventData) : CardState × List Action :=
  match ev, st.activeDeviceInfo with
  | some d, some info =>
    if d.source_device_id ≠ info.device_id ∧ some d.dest_device_id ≠ st.selectedDestination then
      (st, [])
    else if d.state = "connected" then ({ st with active := true }, [])
    else if d.state = "disconnected" then hangup st
    else (st, [])
  | _, _ => (st, [])

/-- `_handleAudioEvent(event)`: ignore events without data, without an
active device, for another device, or while not actively streaming;
otherwise count the chunk, decode base64 to Int16 samples and hand them
to the jitter scheduler.  Decode failures are swallowed after the
counter increment (the JS `try` block). -/
def handleAudioEvent (st : CardState) (ev : Option AudioEventData) (now : ℚ) :
    CardState × List Action :=
  match ev, st.activeDeviceInfo with
  | some d, some info =>
    if d.device_id ≠ info.device_id then (st, [])
    else if st.active = false ∨ st.playbackContext = false then (st, [])
    else
      let st₁ := { st with chunksReceived := st.chunksReceived + 1 }
      match b64decode d.audio with
      | none => (st₁, [])
      | some bytes =>
        match samplesOfBytes bytes with
        | none => (st₁, [])
        | some samples => playScheduled st₁ now samples.length
  | _, _ => (st, [])

/-- The outcome selected by `_toggle()`. -/
inductive ToggleAction where
  | noop
  | hangupCall
  | bridgeCall
  | startCall
deriving DecidableEq

/-- `_toggle()`: ignore clicks during a transition, otherwise hang up an
active/ringing call, or start a bridge (PTMP) or a call (P2P). -/
def toggle (st : CardState) : ToggleAction :=
  if st.starting || st.stopping then ToggleAction.noop
  else if st.active || st.ringing then ToggleAction.hangupCall
  else if st.ptmpMode then ToggleAction.bridgeCall
  else ToggleAction.startCall

/-- `_loadAvailableDevices()`: the destination list excludes the card's
own configured device. -/
def loadAvailableDevices (devices : List DeviceInfo) (currentDeviceId : String) :
    List DeviceInfo :=
  devices.filter (fun d => d.device_id != currentDeviceId)

/-- `_bridge()` up to the point where the `intercom_native/bridge`
request is sent: a missing source or destination host aborts with an
error and sends nothing. -/
def bridgeSetup (st : CardState) (sourceDeviceInfo : Option DeviceInfo) :
    CardState × List Action :=
  match sourceDeviceInfo with
  | none => (st, [Action.showError "Source device IP not available"])
  | some src =>
    match src.host with
    | none => (st, [Action.showError "Source device IP not available"])
    | some srcHost =>
      match st.availableDevices.find? (fun d => some d.device_id == st.selectedDestination) with
      | none => (st, [Action.showError "Destination device not selected or IP not available"])
      | some dest =>
        match dest.host with
        | none => (st, [Action.showError "Destination device not selected or IP not available"])
        | some destHost =>
          ({ st with activeDeviceInfo := some src, starting := true },
           [Action.sendBridge src.device_id srcHost dest.device_id destHost])

/-- A sample concrete device with a known address. -/
def devA : DeviceInfo := { device_id := "dev-a", name := "Device A", host := some "10.0.0.2" }

/-- A second concrete device with a known address. -/
def devB : DeviceInfo := { device_id := "dev-b", name := "Device B", host := some "10.0.0.3" }

/-- A concrete device whose address is unknown. -/
def devNoHost : DeviceInfo := { device_id := "dev-c", name := "Device C", host := none }

/-- A card waiting for a local answer: endpoint acknowledged START with
`ringing`, resources allocated, not yet streaming. -/
def ringingState : CardState :=
  { initialState with
      activeDeviceInfo := some devA
      ringing := true
      playbackContext := true
      gainNode := true
      mediaStream := true
      workletNode := true
      source := true
      audioContext := true
      subscribedAudio := true
      subscribedState := true }

/-- A card in an active P2P call. -/
def inCallState : CardState :=
  { ringingState with ringing := false, active := true }

/-- A card with an active PTMP bridge from `devA` to `devB`. -/
def bridgeActiveState : CardState :=
  { initialState with
      active := true
      activeDeviceInfo := some devA
      selectedDestination := some "dev-b"
      availableDevices := [devB]
      subscribedState := true }

/-- The torn-down/idle outcome after a `disconnected` event: the stop
request was sent, both subscriptions dropped, every audio resource
released, and the active/ringing/stopping flags cleared. -/
def tornDown (info : DeviceInfo) (r : CardState × List Action) : Prop :=
  r.2 = [Action.sendStop info.device_id] ∧
  r.1.active = false ∧ r.1.ringing = false ∧ r.1.stopping = false ∧
  r.1.activeDeviceInfo = none ∧
  r.1.subscribedAudio = false ∧ r.1.subscribedState = false ∧
  r.1.mediaStream = false ∧ r.1.workletNode = false ∧ r.1.source = false ∧
  r.1.audioContext = false ∧ r.1.playbackContext = false ∧ r.1.gainNode = false

/-! ## Jitter scheduler lemmas -/

/-- A chunk arriving while the cursor has fallen behind `now` is still
scheduled, at `now + 1/100`, and the cursor restarts from there. -/
theorem playScheduled_behind (st : CardState) (now : ℚ) (len : Nat)
    (hctx : st.playbackContext = true) (hg : st.gainNode = true)
    (hlt : st.nextPlayTime < now) :
    playScheduled st now len =
      ({ st with nextPlayTime := now + 1/100 + (len : ℚ) / 16000 },
       [Action.play (now + 1/100) ((len : ℚ) / 16000)]) := by
  unfold playScheduled
  have h2 : ¬ (now + 1/100 - now > (1/5 : ℚ)) := by
    push_neg
    norm_num
  simp [hctx, hg, if_pos hlt, h2]
  norm_num

/-- A chunk arriving exactly when the cursor sits `1/100` ahead of `now`
is scheduled back-to-back at the cursor. -/
theorem playScheduled_onTime (st : CardState) (t : ℚ) (len : Nat)
    (hctx : st.playbackContext = true) (hg : st.gainNode = true)
    (hnpt : st.nextPlayTime = t + 1/100) :
    playScheduled st t len =
      ({ st with nextPlayTime := t + 1/100 + (len : ℚ) / 16000 },
       [Action.play (t + 1/100) ((len : ℚ) / 16000)]) := by
  unfold playScheduled
  rw [hnpt]
  have h1 : ¬ (t + 1/100 : ℚ) < t := by linarith
  have h2 : ¬ (t + 1/100 - t > (1/5 : ℚ)) := by
    push_neg
    norm_num
  simp [hctx, hg, if_neg h1, h2]
  norm_num

/-- A chunk arriving while the cursor is ahead of `now` by more than the
maximum lookahead is dropped. -/
theorem playScheduled_drop (st : CardState) (now : ℚ) (len : Nat)
    (hctx : st.playbackContext = true) (hg : st.gainNode = true)
    (hb : ¬ st.nextPlayTime < now) (hdrop : st.nextPlayTime - now > 1/5) :
    playScheduled st now len =
      ({ st with chunksDropped := st.chunksDropped + 1, nextPlayTime := now + 1/50 }, []) := by
  unfold playScheduled
  simp [hctx, hg, if_neg hb, if_pos hdrop]
  linarith

/-- A chunk arriving while the cursor is ahead of `now` by at most the
maximum lookahead is scheduled at the cursor. -/
theorem playScheduled_keep (st : CardState) (now : ℚ) (len : Nat)
    (hctx : st.playbackContext = true) (hg : st.gainNode = true)
    (hb : ¬ st.nextPlayTime < now) (hdrop : ¬ st.nextPlayTime - now > 1/5) :
    playScheduled st now len =
      ({ st with nextPlayTime := st.nextPlayTime + (len : ℚ) / 16000 },
       [Action.play st.nextPlayTime ((len : ℚ) / 16000)]) := by
  unfold playScheduled
  simp [hctx, hg, if_neg hb, if_neg hdrop]
  linarith

/-- Chunks arriving exactly one nominal chunk duration apart are all
scheduled, back to back, with no drops. -/
theorem playMany_nominal (n : Nat) : ∀ (st : CardState) (t : ℚ) (len : Nat),
    st.playbackContext = true → st.gainNode = true →
    (st.nextPlayTime < t ∨ st.nextPlayTime = t + 1/100) →
    (playMany st (nominalChunks t ((len : ℚ) / 16000) len n)).1.chunksDropped =
      st.chunksDropped ∧
    (playMany st (nominalChunks t ((len : ℚ) / 16000) len n)).2 =
      (List.range n).map
        (fun i : Nat =>
          Action.play (t + 1/100 + (i : ℚ) * ((len : ℚ) / 16000)) ((len : ℚ) / 16000)) := by
  induction n with
  | zero =>
    intro st t len _ _ _
    simp [nominalChunks, playMany]
  | succ n ih =>
    intro st t len hctx hg hcase
    have hstep : playScheduled st t len =
        ({ st with nextPlayTime := t + 1/100 + (len : ℚ) / 16000 },
         [Action.play (t + 1/100) ((len : ℚ) / 16000)]) := by
      rcases hcase with hlt | heq
      · exact playScheduled_behind st t len hctx hg hlt
      · exact playScheduled_onTime st t len hctx hg heq
    have htail := ih { st with nextPlayTime := t + 1/100 + (len : ℚ) / 16000 }
      (t + (len : ℚ) / 16000) len hctx hg (Or.inr (by ring))
    rw [nominalChunks]
    simp only [playMany, hstep]
    refine ⟨htail.1, ?_⟩
    rw [htail.2, List.range_succ_eq_map, List.map_cons, List.map_map]
    simp only [Nat.cast_zero, zero_mul, add_zero, List.cons_append, List.nil_append,
      List.singleton_append]
    congr 1
    refine List.map_congr_left ?_
    intro i _
    simp only [Function.comp_apply]
    congr 1
    push_cast
    ring

/-! ## Claim theorems -/

/-- C1 (counterexample): the claim says each chunk is scheduled at
`max(nextPlayTime, now + minLookahead)`.  With `nextPlayTime = 201/200`,
`now = 1` and `minLookahead = 1/100`, the code schedules the chunk at
`201/200`, which differs from `max(201/200, 1 + 1/100) = 101/100`. -/
theorem c1_counterexample :
    (playScheduled
        { initialState with playbackContext := true, gainNode := true, nextPlayTime := 201/200 }
        1 160).2 = [Action.play (201/200) (1/100)] ∧
    (201/200 : ℚ) ≠ max (201/200 : ℚ) (1 + 1/100) := by
  constructor
  · norm_num [playScheduled, initialState]
  · rw [max_eq_right (by norm_num)]
    norm_num

/-- C1 (amended): each chunk is scheduled at `nextPlayTime`, after first
resetting `nextPlayTime` to `now + minLookahead` (1/100 s) only when it
has fallen behind `now`; after scheduling, the cursor advances by
exactly the chunk's duration and the drop counter is unchanged; when the
schedule point is more than the maximum lookahead (1/5 s) ahead of
`now`, the chunk is dropped, the drop counter is incremented by one, and
the cursor is reset to `now + 1/50`. -/
theorem c1_schedule (st : CardState) (now npt : ℚ) (len : Nat)
    (hctx : st.playbackContext = true) (hg : st.gainNode = true)
    (hnpt : npt = if st.nextPlayTime < now then now + 1/100 else st.nextPlayTime) :
    (npt - now ≤ 1/5 →
      (playScheduled st now len).2 = [Action.play npt ((len : ℚ) / 16000)] ∧
      (playScheduled st now len).1.nextPlayTime = npt + (len : ℚ) / 16000 ∧
      (playScheduled st now len).1.chunksDropped = st.chunksDropped) ∧
    (1/5 < npt - now →
      (playScheduled st now len).2 = [] ∧
      (playScheduled st now len).1.chunksDropped = st.chunksDropped + 1 ∧
      (playScheduled st now len).1.nextPlayTime = now + 1/50) := by
  unfold playScheduled
  simp only [hctx, hg]
  rw [← hnpt]
  constructor
  · intro hle
    rw [if_neg (by simp), if_neg (by push_neg; exact hle)]
    exact ⟨rfl, rfl, rfl⟩
  · intro hgt
    rw [if_neg (by simp), if_pos (by exact hgt)]
    exact ⟨rfl, rfl, rfl⟩

/-- C1 witness: a concrete instantiation of the amended claim. -/
theorem c1_schedule_witness :
    (playScheduled { initialState with playbackContext := true, gainNode := true }
        1 160).2 = [Action.play (1 + 1/100) ((160 : ℚ) / 16000)] :=
  ((c1_schedule { initialState with playbackContext := true, gainNode := true }
      1 (1 + 1/100) 160 rfl rfl (by norm_num [initialState])).1 (by norm_num)).1

/-- C2 (counterexample): two chunks whose inter-arrival gap (3/10 s)
exceeds the maximum lookahead (1/5 s) produce zero drops, contradicting
the claim that the drop count increases. -/
theorem c2_counterexample :
    (13/10 : ℚ) - 1 > 1/5 ∧
    (playMany { initialState with playbackContext := true, gainNode := true }
        [(1, 800), (13/10, 800)]).1.chunksDropped = 0 := by
  refine ⟨by norm_num, ?_⟩
  norm_num [playMany, playScheduled, initialState]

/-- C2 (amended): when a chunk arrives after the cursor has fallen
behind `now` (as after an inter-arrival gap longer than the schedule's
lead, in particular a gap above the maximum lookahead), the chunk is
still scheduled — at `now + 1/100`, within one lookahead window of
`now` — and the drop count does not change; chunks arriving exactly one
nominal chunk duration apart are never dropped and are scheduled back to
back, each starting exactly when the previous one ends. -/
theorem c2_schedule :
    (∀ (st : CardState) (now : ℚ) (len : Nat),
      st.playbackContext = true → st.gainNode = true → st.nextPlayTime < now →
      (playScheduled st now len).1.chunksDropped = st.chunksDropped ∧
      (playScheduled st now len).2 = [Action.play (now + 1/100) ((len : ℚ) / 16000)] ∧
      now ≤ now + 1/100 ∧ now + 1/100 ≤ now + 1/5) ∧
    (∀ (t : ℚ) (len n : Nat), 0 < t →
      (playMany { initialState with playbackContext := true, gainNode := true }
          (nominalChunks t ((len : ℚ) / 16000) len n)).1.chunksDropped = 0 ∧
      (playMany { initialState with playbackContext := true, gainNode := true }
          (nominalChunks t ((len : ℚ) / 16000) len n)).2 =
        (List.range n).map
          (fun i : Nat =>
            Action.play (t + 1/100 + (i : ℚ) * ((len : ℚ) / 16000))
              ((len : ℚ) / 16000))) := by
  constructor
  · intro st now len hctx hg hlt
    rw [playScheduled_behind st now len hctx hg hlt]
    refine ⟨rfl, rfl, by linarith, by linarith⟩
  · intro t len n ht
    have h := playMany_nominal n
      { initialState with playbackContext := true, gainNode := true } t len rfl rfl
      (Or.inl (by simpa [initialState] using ht))
    simpa [initialState] using h

/-- C2 witness: a concrete instantiation of the amended claim, with two
chunks of 800 samples (1/20 s) arriving exactly 1/20 s apart. -/
theorem c2_schedule_witness :
    (playMany { initialState with playbackContext := true, gainNode := true }
        (nominalChunks 1 ((800 : ℚ) / 16000) 800 2)).1.chunksDropped = 0 :=
  ((c2_schedule.2) 1 800 2 (by norm_num)).1

/-- C3: every chunk the scheduler processes is either scheduled to start
no earlier than the playback clock's current time and at most one
maximum lookahead after it, or — when the schedule point would exceed
that bound — dropped (no play action, drop counter incremented) rather
than played late. -/
theorem c3_invariant (st : CardState) (now npt : ℚ) (len : Nat)
    (hnpt : npt = if st.nextPlayTime < now then now + 1/100 else st.nextPlayTime) :
    (∀ s d, Action.play s d ∈ (playScheduled st now len).2 → now ≤ s ∧ s ≤ now + 1/5) ∧
    (st.playbackContext = true → st.gainNode = true → now + 1/5 < npt →
      (playScheduled st now len).2 = [] ∧
      (playScheduled st now len).1.chunksDropped = st.chunksDropped + 1) := by
  constructor
  · intro s d hmem
    by_cases hctx : st.playbackContext = true
    · by_cases hg : st.gainNode = true
      · by_cases hb : st.nextPlayTime < now
        · rw [playScheduled_behind st now len hctx hg hb] at hmem
          simp only [List.mem_singleton, Action.play.injEq] at hmem
          obtain ⟨hs, -⟩ := hmem
          subst hs
          have h15 : (1/100 : ℚ) ≤ 1/5 := by norm_num
          exact ⟨by linarith, by linarith⟩
        · by_cases hdrop : st.nextPlayTime - now > 1/5
          · rw [playScheduled_drop st now len hctx hg hb hdrop] at hmem
            simp at hmem
          · rw [playScheduled_keep st now len hctx hg hb hdrop] at hmem
            simp only [List.mem_singleton, Action.play.injEq] at hmem
            obtain ⟨hs, -⟩ := hmem
            subst hs
            push_neg at hb hdrop
            exact ⟨hb, by linarith⟩
      · have hnil : (playScheduled st now len).2 = [] := by
          unfold playScheduled
          rw [if_pos (Or.inr (by simpa using hg))]
        rw [hnil] at hmem
        simp at hmem
    · have hnil : (playScheduled st now len).2 = [] := by
        unfold playScheduled
        rw [if_pos (Or.inl (by simpa using hctx))]
      rw [hnil] at hmem
      simp at hmem
  · intro hctx hg hgt
    unfold playScheduled
    rw [if_neg (by simp [hctx, hg]), ← hnpt, if_pos (by linarith)]
    simp

/-- C3 witness: a concrete instantiation, in the dropping regime. -/
theorem c3_invariant_witness :
    (playScheduled
        { initialState with playbackContext := true, gainNode := true, nextPlayTime := 2 }
        1 160).2 = [] :=
  ((c3_invariant
      { initialState with playbackContext := true, gainNode := true, nextPlayTime := 2 }
      1 2 160 (by norm_num [initialState])).2 rfl rfl (by norm_num)).1

/-- C4: while the session is ringing (`active = false`), every received
audio event is discarded — state unchanged, nothing played or buffered;
after a `streaming` state event the card is active, and a subsequent
audio event for the active device is decoded and handed to the jitter
scheduler. -/
theorem c4_ringing_discard (st : CardState) (info : DeviceInfo) (sd : StateEventData)
    (ad : AudioEventData) (now : ℚ) (bytes : List Nat) (samples : List Int)
    (hinfo : st.activeDeviceInfo = some info)
    (hsd : sd.device_id = info.device_id) (hss : sd.state = "streaming")
    (had : ad.device_id = info.device_id)
    (hdec : b64decode ad.audio = some bytes) (hsam : samplesOfBytes bytes = some samples)
    (hctx : st.playbackContext = true) :
    (st.active = false → handleAudioEvent st (some ad) now = (st, [])) ∧
    (handleStateEvent st (some sd)).1.active = true ∧
    (handleStateEvent st (some sd)).1.ringing = false ∧
    handleAudioEvent (handleStateEvent st (some sd)).1 (some ad) now =
      playScheduled
        { (handleStateEvent st (some sd)).1 with chunksReceived := st.chunksReceived + 1 }
        now samples.length := by
  have hstep : handleStateEvent st (some sd) = ({ st with ringing := false, active := true }, []) := by
    simp [handleStateEvent, hinfo, hsd, hss]
  refine ⟨?_, ?_, ?_, ?_⟩
  · intro hact
    simp [handleAudioEvent, hinfo, had, hact]
  · rw [hstep]
  · rw [hstep]
  · rw [hstep]
    simp [handleAudioEvent, hinfo, had, hctx, hdec, hsam]

/-- C4 witness: a concrete ringing card discards a concrete audio event,
and after the `streaming` event the same audio event reaches the
scheduler. -/
theorem c4_ringing_discard_witness :
    handleAudioEvent ringingState
      (some { device_id := "dev-a", audio := b64encode (bytesOfSamples [100, -3]) }) 1 =
      (ringingState, []) :=
  (c4_ringing_discard ringingState devA
      { device_id := "dev-a", state := "streaming" }
      { device_id := "dev-a", audio := b64encode (bytesOfSamples [100, -3]) }
      1 (bytesOfSamples [100, -3]) [100, -3]
      rfl rfl rfl rfl (by decide) (by decide) rfl).1 rfl

/-- C5: a `disconnected` state event for the active device (P2P), or a
`disconnected` bridge-state event whose source is the active device
(PTMP), tears the call down: the stop request is sent, both event
subscriptions are dropped, all audio resources are released, and the
active/ringing/stopping flags are cleared. -/
theorem c5_disconnected_teardown (st : CardState) (info : DeviceInfo)
    (sd : StateEventData) (bd : BridgeEventData)
    (hinfo : st.activeDeviceInfo = some info) :
    (sd.device_id = info.device_id → sd.state = "disconnected" →
      tornDown info (handleStateEvent st (some sd))) ∧
    (bd.source_device_id = info.device_id → bd.state = "disconnected" →
      tornDown info (handleBridgeStateEvent st (some bd))) := by
  have hhang : tornDown info (hangup st) := by
    unfold hangup cleanup tornDown
    rw [hinfo]
    exact ⟨rfl, rfl, rfl, rfl, rfl, rfl, rfl, rfl, rfl, rfl, rfl, rfl, rfl⟩
  constructor
  · intro hid hdisc
    have : handleStateEvent st (some sd) = hangup st := by
      simp [handleStateEvent, hinfo, hid, hdisc]
    rw [this]
    exact hhang
  · intro hid hdisc
    have : handleBridgeStateEvent st (some bd) = hangup st := by
      simp [handleBridgeStateEvent, hinfo, hid, hdisc]
    rw [this]
    exact hhang

/-- C5 witness: a concrete in-call card torn down by a concrete
`disconnected` event. -/
theorem c5_disconnected_teardown_witness :
    tornDown devA
      (handleStateEvent inCallState (some { device_id := "dev-a", state := "disconnected" })) :=
  (c5_disconnected_teardown inCallState devA
      { device_id := "dev-a", state := "disconnected" }
      { source_device_id := "dev-a", dest_device_id := "dev-b", state := "disconnected" }
      rfl).1 rfl rfl

/-- C6: when the source device or the selected destination device has no
known network address, `_bridge` aborts with an error before anything is
sent: no bridge request action is emitted and an error is shown. -/
theorem c6_bridge_requires_hosts (st : CardState) (src : Option DeviceInfo)
    (h : (∀ s, src = some s → s.host = none) ∨
      (∀ d, st.availableDevices.find?
          (fun d => some d.device_id == st.selectedDestination) = some d → d.host = none)) :
    (∀ p₁ p₂ p₃ p₄, Action.sendBridge p₁ p₂ p₃ p₄ ∉ (bridgeSetup st src).2) ∧
    (∃ msg, Action.showError msg ∈ (bridgeSetup st src).2) := by
  rcases hsrc : src with - | s
  · simp [bridgeSetup]
  · rcases hhost : s.host with - | srcHost
    · simp [bridgeSetup, hhost]
    · have hs : ¬ (∀ s', src = some s' → s'.host = none) := by
        intro hall
        have := hall s hsrc
        rw [hhost] at this
        exact Option.noConfusion this
      rcases h with h | h
      · exact absurd h hs
      · rcases hfind : st.availableDevices.find?
            (fun d => some d.device_id == st.selectedDestination) with - | dest
        · simp [bridgeSetup, hhost, hfind]
        · have hdest : dest.host = none := h dest hfind
          simp [bridgeSetup, hhost, hfind, hdest]

/-- C6 witness: a concrete destination without an address aborts the
bridge with an error and no request. -/
theorem c6_bridge_requires_hosts_witness :
    ∃ msg, Action.showError msg ∈
      (bridgeSetup
        { initialState with
            availableDevices := [devNoHost], selectedDestination := some "dev-c" }
        (some devA)).2 :=
  (c6_bridge_requires_hosts
      { initialState with
          availableDevices := [devNoHost], selectedDestination := some "dev-c" }
      (some devA)
      (Or.inr (by intro d hd; simp [initialState, devNoHost] at hd; rw [← hd]))).2

/-- C8: while a start or stop transition is in flight, the button is a
no-op: `_toggle` selects no call, bridge, or hangup. -/
theorem c8_toggle_noop (st : CardState) (h : st.starting = true ∨ st.stopping = true) :
    toggle st = ToggleAction.noop := by
  unfold toggle
  rcases h with h | h <;> simp [h]

/-- C8 witness: a concrete starting card ignores the button. -/
theorem c8_toggle_noop_witness :
    toggle { initialState with starting := true } = ToggleAction.noop :=
  c8_toggle_noop { initialState with starting := true } (Or.inl rfl)

/-- C9: the PTMP destination list never contains the card's own
configured device. -/
theorem c9_excludes_self (devices : List DeviceInfo) (currentDeviceId : String)
    (d : DeviceInfo) (h : d ∈ loadAvailableDevices devices currentDeviceId) :
    d.device_id ≠ currentDeviceId := by
  unfold loadAvailableDevices at h
  have := List.of_mem_filter h
  simpa using this

/-- C9 witness: a concrete list with the own device filtered out. -/
theorem c9_excludes_self_witness : devB.device_id ≠ "dev-a" :=
  c9_excludes_self [devA, devB] "dev-a" devB (by decide)

/-- C10 (counterexample): a bridge-state event whose source is a foreign
device but whose destination matches the selected destination is NOT
ignored: it tears the active bridge down, so an event carrying a
different source device id changes the card's state. -/
theorem c10_counterexample :
    ("dev-x" : String) ≠ devA.device_id ∧
    bridgeActiveState.activeDeviceInfo = some devA ∧
    bridgeActiveState.active = true ∧
    (handleBridgeStateEvent bridgeActiveState
        (some { source_device_id := "dev-x", dest_device_id := "dev-b",
                state := "disconnected" })).1.active = false := by
  refine ⟨by decide, rfl, rfl, ?_⟩
  simp [handleBridgeStateEvent, bridgeActiveState, initialState, hangup, cleanup, devA]

/-- C10 (amended): audio and P2P state events are ignored when no call
is active or when their `device_id` differs from the active device's;
bridge-state events are ignored only when BOTH their source differs from
the active device AND their destination differs from the selected
destination — an event matching either identifier is processed. -/
theorem c10_foreign_events_ignored (st : CardState) (info : DeviceInfo)
    (ad : AudioEventData) (sd : StateEventData) (bd : BridgeEventData) (now : ℚ) :
    (st.activeDeviceInfo = none →
      handleAudioEvent st (some ad) now = (st, []) ∧
      handleStateEvent st (some sd) = (st, []) ∧
      handleBridgeStateEvent st (some bd) = (st, [])) ∧
    (st.activeDeviceInfo = some info → ad.device_id ≠ info.device_id →
      handleAudioEvent st (some ad) now = (st, [])) ∧
    (st.activeDeviceInfo = some info → sd.device_id ≠ info.device_id →
      handleStateEvent st (some sd) = (st, [])) ∧
    (st.activeDeviceInfo = some info → bd.source_device_id ≠ info.device_id →
      some bd.dest_device_id ≠ st.selectedDestination →
      handleBridgeStateEvent st (some bd) = (st, [])) := by
  refine ⟨?_, ?_, ?_, ?_⟩
  · intro hnone
    exact ⟨by simp [handleAudioEvent, hnone], by simp [handleStateEvent, hnone],
      by simp [handleBridgeStateEvent, hnone]⟩
  · intro hinfo hne
    simp [handleAudioEvent, hinfo, hne]
  · intro hinfo hne
    simp [handleStateEvent, hinfo, hne]
  · intro hinfo hne₁ hne₂
    simp [handleBridgeStateEvent, hinfo, hne₁, hne₂]

/-! ## Base64 / Int16 round-trip lemmas -/

/-- Alphabet lookup is injectively invertible on 6-bit values. -/
theorem charSextet_sextetChar : ∀ n, n < 64 → charSextet (sextetChar n) = some n := by
  decide

/-- No alphabet character is the padding character. -/
theorem sextetChar_ne_pad (n : Nat) : sextetChar n ≠ '=' := by
  by_cases h : n < 64
  · exact (by decide : ∀ m, m < 64 → sextetChar m ≠ '=') n h
  · unfold sextetChar
    rw [List.getD_eq_default]
    · decide
    · have hlen : b64Alphabet.length = 64 := by decide
      omega

/-- `atob` inverts `btoa` on byte lists. -/
theorem b64_roundtrip : ∀ bs : List Nat, (∀ x ∈ bs, x < 256) →
    b64decode (b64encode bs) = some bs
  | [], _ => rfl
  | [a], h => by
    have ha : a < 256 := h a (by simp)
    have h₁ := charSextet_sextetChar (a / 4) (by omega)
    have h₂ := charSextet_sextetChar (a % 4 * 16) (by omega)
    simp only [b64encode, b64decode, h₁, h₂]
    norm_num
    omega
  | [a, b], h => by
    have ha : a < 256 := h a (by simp)
    have hb : b < 256 := h b (by simp)
    have h₁ := charSextet_sextetChar (a / 4) (by omega)
    have h₂ := charSextet_sextetChar (a % 4 * 16 + b / 16) (by omega)
    have h₃ := charSextet_sextetChar (b % 16 * 4) (by omega)
    have hpad := sextetChar_ne_pad (b % 16 * 4)
    simp only [b64encode, b64decode, h₁, h₂, h₃]
    rw [if_neg (by simp [hpad])]
    rw [if_pos (by simp)]
    simp only [Option.some.injEq, List.cons.injEq, and_true]
    refine ⟨by omega, by omega⟩
  | a :: b :: c :: rest, h => by
    have ha : a < 256 := h a (by simp)
    have hb : b < 256 := h b (by simp)
    have hc : c < 256 := h c (by simp)
    have ih := b64_roundtrip rest (fun x hx => h x (by simp [hx]))
    have h₁ := charSextet_sextetChar (a / 4) (by omega)
    have h₂ := charSextet_sextetChar (a % 4 * 16 + b / 16) (by omega)
    have h₃ := charSextet_sextetChar (b % 16 * 4 + c / 64) (by omega)
    have h₄ := charSextet_sextetChar (c % 64) (by omega)
    have hpad₃ := sextetChar_ne_pad (b % 16 * 4 + c / 64)
    have hpad₄ := sextetChar_ne_pad (c % 64)
    show b64decode
        (sextetChar (a / 4) :: sextetChar (a % 4 * 16 + b / 16) ::
          sextetChar (b % 16 * 4 + c / 64) :: sextetChar (c % 64) :: b64encode rest) =
      some (a :: b :: c :: rest)
    simp only [b64decode, h₁, h₂, h₃, h₄]
    rw [if_neg (by simp [hpad₃])]
    rw [if_neg (by simp [hpad₄])]
    rw [ih]
    simp only [Option.some.injEq, List.cons.injEq, and_true]
    refine ⟨by omega, by omega, by omega⟩

/-- Every byte of the little-endian image of a sample list fits 8
bits. -/
theorem bytesOfSamples_bound : ∀ samples : List Int, ∀ x ∈ bytesOfSamples samples, x < 256
  | [] => by simp [bytesOfSamples]
  | s :: rest => by
    intro x hx
    simp only [bytesOfSamples, List.mem_cons] at hx
    have hu : u16OfInt16 s < 65536 := by
      unfold u16OfInt16
      omega
    rcases hx with rfl | rfl | hx
    · omega
    · omega
    · exact bytesOfSamples_bound rest x hx

/-- Reading the little-endian byte image back through `Int16Array`
recovers the original samples. -/
theorem samples_roundtrip : ∀ samples : List Int,
    (∀ s ∈ samples, -32768 ≤ s ∧ s < 32768) →
    samplesOfBytes (bytesOfSamples samples) = some samples
  | [], _ => rfl
  | s :: rest, h => by
    have hs := h s (by simp)
    have ih := samples_roundtrip rest (fun x hx => h x (by simp [hx]))
    have hval : int16OfU16 (u16OfInt16 s % 256 + 256 * (u16OfInt16 s / 256)) = s := by
      have hu : u16OfInt16 s % 256 + 256 * (u16OfInt16 s / 256) = u16OfInt16 s := by omega
      rw [hu]
      unfold int16OfU16 u16OfInt16
      split_ifs with hlt
      · unfold u16OfInt16 at hlt
        omega
      · unfold u16OfInt16 at hlt
        omega
    simp only [bytesOfSamples, samplesOfBytes, ih, Option.map_some', hval]

/-- C7: the audio envelope encoding is lossless: the base64 payload that
`_sendAudio` puts on the wire for an Int16 sample array decodes, through
`_handleAudioEvent`'s `atob`-and-`Int16Array` path, to exactly the
original samples. -/
theorem c7_base64_lossless (st : CardState) (info : DeviceInfo) (samples : List Int)
    (hactive : st.active = true) (hinfo : st.activeDeviceInfo = some info)
    (hrange : ∀ s ∈ samples, -32768 ≤ s ∧ s < 32768) :
    (sendAudio st samples).2 =
      [Action.sendAudio info.device_id (b64encode (bytesOfSamples samples))] ∧
    (b64decode (b64encode (bytesOfSamples samples))).bind samplesOfBytes = some samples := by
  constructor
  · simp [sendAudio, hinfo, hactive]
  · rw [b64_roundtrip _ (bytesOfSamples_bound samples)]
    exact samples_roundtrip samples hrange

/-- C7 witness: a concrete round trip covering both extreme sample
values. -/
theorem c7_base64_lossless_witness :
    (b64decode (b64encode (bytesOfSamples [1, -1, 32767, -32768]))).bind samplesOfBytes =
      some [1, -1, 32767, -32768] :=
  (c7_base64_lossless inCallState devA [1, -1, 32767, -32768] rfl rfl (by decide)).2

/-- C10 witness: a concrete audio event for a foreign device leaves a
concrete in-call card untouched. -/
theorem c10_foreign_events_ignored_witness :
    handleAudioEvent inCallState
      (some { device_id := "dev-z", audio := [] }) 1 = (inCallState, []) :=
  (c10_foreign_events_ignored inCallState devA
      { device_id := "dev-z", audio := [] }
      { device_id := "dev-z", state := "streaming" }
      { source_device_id := "dev-z", dest_device_id := "dev-z", state := "connected" }
      1).2.1 rfl (by decide)

end Intercom
